import Mathlib

/-!
Verification development for the CLI task manager (`task_manager.py`).

Shallow embedding conventions:
* A Python task dict created by `add_task` always contains the keys
  `description`, `completed`, `priority`, `due_date`, `category`, `tags`,
  `created_at`; `due_date` and `category` may hold the value `None`.
  `complete_task` later adds the key `completed_at` with a string value.
  The `Task` structure below represents exactly these dictionaries:
  `Option String` fields model keys whose value may be `None`
  (`none` = Python `None`), and `completed_at = none` models the key
  being absent.  Consequently the `dict.get` defaults `'9999-99-99'`
  (for `due_date`) and `'Uncategorized'` (for `category`) in
  `list_tasks` never fire on such dictionaries: the keys are present.
* Exceptions are modelled explicitly: `PyErr.valueError msg` is a raised
  `ValueError(msg)` and `PyErr.typeError` a raised `TypeError` (its
  message text is not modelled).  Each operation returns an `Effect`
  carrying the resulting store, whether `save_tasks` ran, the printed
  lines, and the raised exception if any.
* `datetime.now()` is passed in as the string argument `now`.
* File contents are modelled at the JSON-value level (`Json`), with the
  surrounding open/read/parse treated as an external collaborator that
  yields either a parsed value or an error.
-/

namespace TaskManager

/-- `PRIORITIES = ['low', 'medium', 'high']` from the source. -/
def PRIORITIES : List String := ["low", "medium", "high"]

/-- One task dictionary as created by `add_task` (and possibly updated by
`complete_task`).  `due_date = none` / `category = none` model the key being
present with value `None`; `completed_at = none` models the key being absent. -/
structure Task where
  description : String
  completed : Bool
  priority : String
  due_date : Option String
  category : Option String
  tags : List String
  created_at : String
  completed_at : Option String
  deriving Repr, DecidableEq

/-- A raised Python exception. -/
inductive PyErr where
  | valueError (msg : String)
  | typeError
  deriving Repr, DecidableEq

/-- Observable outcome of one operation: the store contents afterwards,
whether `save_tasks` was called, the lines printed, and the exception
raised (if any). -/
structure Effect where
  store : List Task
  saved : Bool
  out : List String
  err : Option PyErr
  deriving Repr, DecidableEq

/-- Python truthiness of a `str | None` value: `None` and `''` are falsy. -/
def pyTruthy : Option String → Bool
  | none => false
  | some s => !(s == "")

/-- Python `str.lower()` (ASCII case folding, which covers the strings used
by this program). -/
def lowerStr (s : String) : String := String.mk (s.data.map Char.toLower)

/-- Helper for Python's substring test: does `n` occur as a contiguous
subsequence of the second list? -/
def subAux (n : List Char) : List Char → Bool
  | [] => n.isEmpty
  | c :: cs => n.isPrefixOf (c :: cs) || subAux n cs

/-- Python `needle in hay` on strings (substring containment). -/
def pySubstr (needle hay : String) : Bool := subAux needle.data hay.data

/-- Python `<` on strings: lexicographic comparison of code points. -/
def pyStrLtL : List Char → List Char → Bool
  | [], [] => false
  | [], _ :: _ => true
  | _ :: _, [] => false
  | a :: as, b :: bs =>
    if a.toNat < b.toNat then true
    else if b.toNat < a.toNat then false
    else pyStrLtL as bs

/-- Python `s < t` for strings. -/
def pyStrLt (s t : String) : Bool := pyStrLtL s.data t.data

/-! ### `datetime.strptime(due_date, '%Y-%m-%d')`

CPython's `_strptime` compiles `%Y-%m-%d` to the regular expression
`(\d\d\d\d)-(1[0-2]|0[1-9]|[1-9])-(3[01]|[12]\d|0[1-9]|[1-9])`, requires it
to consume the whole string, and then constructs `datetime(year, month,
day)`, which additionally requires `MINYEAR <= year` and a calendar-valid
day for the month.  Any failure raises `ValueError`. -/

/-- Consume a literal `-`. -/
def eatDash : List Char → Option (List Char)
  | '-' :: rest => some rest
  | _ => none

/-- The month alternatives `1[0-2]|0[1-9]|[1-9]`, in the order the regex
engine tries them, each with the remaining input. -/
def monthAlts : List Char → List (Nat × List Char)
  | c1 :: c2 :: rest =>
    (if c1 = '1' ∧ '0' ≤ c2 ∧ c2 ≤ '2' then [(10 + (c2.toNat - 48), rest)] else []) ++
    (if c1 = '0' ∧ '1' ≤ c2 ∧ c2 ≤ '9' then [(c2.toNat - 48, rest)] else []) ++
    (if '1' ≤ c1 ∧ c1 ≤ '9' then [(c1.toNat - 48, c2 :: rest)] else [])
  | [c1] => if '1' ≤ c1 ∧ c1 ≤ '9' then [(c1.toNat - 48, [])] else []
  | [] => []

/-- The day alternatives `3[01]|[12]\d|0[1-9]|[1-9]`, which must consume the
rest of the string (otherwise `strptime` raises "unconverted data remains"). -/
def dayEnd : List Char → Option Nat
  | [c1, c2] =>
    if c1 = '3' ∧ (c2 = '0' ∨ c2 = '1') then some (30 + (c2.toNat - 48))
    else if (c1 = '1' ∨ c1 = '2') ∧ c2.isDigit then
      some ((c1.toNat - 48) * 10 + (c2.toNat - 48))
    else if c1 = '0' ∧ '1' ≤ c2 ∧ c2 ≤ '9' then some (c2.toNat - 48)
    else none
  | [c1] => if '1' ≤ c1 ∧ c1 ≤ '9' then some (c1.toNat - 48) else none
  | _ => none

/-- Textual match of `%Y-%m-%d` over the whole string (regex backtracking:
the first month alternative whose continuation also matches wins). -/
def strptimeYmd (s : String) : Option (Nat × Nat × Nat) :=
  match s.data with
  | a :: b :: c :: d :: '-' :: rest =>
    if a.isDigit ∧ b.isDigit ∧ c.isDigit ∧ d.isDigit then
      let y := (((a.toNat - 48) * 10 + (b.toNat - 48)) * 10 + (c.toNat - 48)) * 10
        + (d.toNat - 48)
      match (monthAlts rest).findSome?
          (fun p => (eatDash p.2).bind (fun r2 => (dayEnd r2).map (fun dd => (p.1, dd)))) with
      | some (m, dd) => some (y, m, dd)
      | none => none
    else none
  | _ => none

/-- Gregorian leap year, as used by `datetime`. -/
def isLeap (y : Nat) : Bool := y % 4 = 0 && (y % 100 ≠ 0 || y % 400 = 0)

/-- Days in a month, as used by `datetime`. -/
def daysInMonth (y m : Nat) : Nat :=
  if m = 2 then (if isLeap y then 29 else 28)
  else if m = 4 ∨ m = 6 ∨ m = 9 ∨ m = 11 then 30
  else 31

/-- `datetime.strptime(s, '%Y-%m-%d')` succeeds: the format regex consumes
the whole string and `datetime(year, month, day)` is constructible
(`year ≥ MINYEAR = 1`, day calendar-valid; `year ≤ 9999` and
`1 ≤ month ≤ 12` already follow from the regex). -/
def strptimeOk (s : String) : Bool :=
  match strptimeYmd s with
  | some (y, _, d) => 1 ≤ y && 1 ≤ d && d ≤ daysInMonth y (strptimeYmd s).iget.2.1
  | none => false

/-- Modelled from the spec: "parseable as YYYY-MM-DD (no calendar-validity
requirement beyond format parse)" — the purely textual format match, with no
calendar check.  Stated only for comparison with `strptimeOk`, the behaviour
of the source's `datetime.strptime` call. -/
def specFormatParseYmd (s : String) : Bool := (strptimeYmd s).isSome

/-- The task dictionary literal built inside `add_task`. -/
def mkTask (now description : String) (due_date : Option String) (priority : String)
    (category : Option String) (tags : Option (List String)) : Task :=
  { description := description
    completed := false
    priority := priority
    due_date := due_date
    category := category
    tags := tags.getD []     -- `tags or []`
    created_at := now
    completed_at := none }

/-- `add_task(description, due_date=None, priority='medium', category=None,
tags=None)`: validate priority, validate due date via `strptime` when truthy,
then append the new task and save. -/
def addTask (now : String) (store : List Task) (description : String)
    (due_date : Option String) (priority : String) (category : Option String)
    (tags : Option (List String)) : Effect :=
  if priority ∉ PRIORITIES then
    ⟨store, false, [],
      some (.valueError ("Priority must be one of: " ++ String.intercalate ", " PRIORITIES))⟩
  else if pyTruthy due_date && !strptimeOk (due_date.getD "") then
    ⟨store, false, [], some (.valueError "Due date must be in YYYY-MM-DD format")⟩
  else
    ⟨store ++ [mkTask now description due_date priority category tags], true,
      ["Added task: " ++ description], none⟩

/-- Python `list.index` restricted to what the sort key needs: position of
the first occurrence, or `none` (where Python raises `ValueError`). -/
def indexOfD (x : String) : List String → Option Nat
  | [] => none
  | y :: ys => if y = x then some 0 else (indexOfD x ys).map (· + 1)

/-- The sort key of `list_tasks`:
`(PRIORITIES.index(x.get('priority', 'medium')), x.get('due_date', '9999-99-99'))`.
On the dictionaries this program creates both keys are present, so the key is
`(PRIORITIES.index(priority), due_date)` with `due_date` possibly `None`;
`list.index` raises `ValueError` for a priority outside the list. -/
def sortKeyE (t : Task) : Except PyErr ((Nat × Option String) × Task) :=
  match indexOfD t.priority PRIORITIES with
  | some i => .ok ((i, t.due_date), t)
  | none => .error (.valueError (t.priority ++ " is not in list"))

/-- Python `<` on the key tuples `(int, str_or_None)`: compare the ranks;
on a tie compare the due dates, where comparing `None` with a string raises
`TypeError` (and `None` compared with `None` is equal, hence not less). -/
def ltKeyE (a b : Nat × Option String) : Except PyErr Bool :=
  if a.1 = b.1 then
    match a.2, b.2 with
    | none, none => .ok false
    | some s, some t => .ok (pyStrLt s t)
    | _, _ => .error .typeError
  else .ok (decide (a.1 < b.1))

/-- Stable insertion of a keyed task into an already-sorted list, comparing
keys with `ltKeyE` (errors propagate like a raised exception). -/
def insertKeyed (x : (Nat × Option String) × Task) :
    List ((Nat × Option String) × Task) → Except PyErr (List ((Nat × Option String) × Task))
  | [] => .ok [x]
  | y :: ys => do
    let b ← ltKeyE x.1 y.1
    if b then
      pure (x :: y :: ys)
    else do
      let r ← insertKeyed x ys
      pure (y :: r)

/-- `visible_tasks.sort(key=...)`: compute all keys first (in list order, as
Python's decorate-sort does), then sort stably by key; a `ValueError` from
key computation or a `TypeError` from a comparison propagates. -/
def sortVisible (l : List Task) : Except PyErr (List Task) := do
  let keyed ← l.mapM sortKeyE
  let sorted ← keyed.foldlM (fun acc x => insertKeyed x acc) []
  pure (sorted.map (·.2))

/-- Python `f"{v}"` for a `str | None` value: `None` prints as `None`. -/
def pyOptStr : Option String → String
  | none => "None"
  | some s => s

/-- `_print_task(index, task)`: the single line printed for one task. -/
def printTask (i : Nat) (t : Task) : String :=
  let status := if t.completed then "✓" else " "
  let pr := "[" ++ t.priority ++ "]"
  let due := if pyTruthy t.due_date then "Due: " ++ t.due_date.getD "" else ""
  let tg := if t.tags ≠ [] then "Tags: " ++ String.intercalate ", " t.tags else ""
  toString i ++ ". [" ++ status ++ "] " ++ pr ++ " " ++ t.description ++ " " ++ due ++ " " ++ tg

/-- `enumerate(tasks, 1)` feeding `_print_task`. -/
def numberLines (ts : List Task) : List String :=
  (List.enumFrom 1 ts).map (fun p => printTask p.1 p.2)

/-- One step of `tasks_by_category.setdefault(cat, []).append(task)`:
append to the existing bucket, or create a new bucket at the end
(Python dicts preserve insertion order). -/
def insertGrouped (k : Option String) (t : Task) :
    List (Option String × List Task) → List (Option String × List Task)
  | [] => [(k, [t])]
  | (k2, ts) :: rest =>
    if k2 = k then (k2, ts ++ [t]) :: rest else (k2, ts) :: insertGrouped k t rest

/-- The `tasks_by_category` dictionary, keyed by
`task.get('category', 'Uncategorized')` — which on this program's
dictionaries is the stored `category` value (possibly `None`), the key
being always present. -/
def groupByCat (l : List Task) : List (Option String × List Task) :=
  l.foldl (fun acc t => insertGrouped t.category t acc) []

/-- `list_tasks(show_completed=True, category=None, tag=None, search=None)`. -/
def listTasks (store : List Task) (show_completed : Bool) (category : Option String)
    (tag : Option String) (search : Option String) : Effect :=
  if store = [] then ⟨store, false, ["No tasks found."], none⟩
  else
    let visible := store.filter (fun t =>
      (show_completed || !t.completed)
      && (!pyTruthy category || (t.category == category))
      && (!pyTruthy tag || t.tags.contains (tag.getD ""))
      && (!pyTruthy search || pySubstr (lowerStr (search.getD "")) (lowerStr t.description)))
    if visible = [] then ⟨store, false, ["No tasks to display."], none⟩
    else
      match sortVisible visible with
      | .error e => ⟨store, false, [], some e⟩
      | .ok sorted =>
        let out :=
          if sorted.any (fun t => pyTruthy t.category) then
            (groupByCat sorted).foldr
              (fun g acc => ("\n" ++ pyOptStr g.1 ++ ":") :: numberLines g.2 ++ acc) []
          else numberLines sorted
        ⟨store, false, out, none⟩

/-- `tasks[index]['completed'] = True; tasks[index]['completed_at'] = now`. -/
def setCompleted (now : String) : Nat → List Task → List Task
  | _, [] => []
  | 0, t :: ts => { t with completed := true, completed_at := some now } :: ts
  | n + 1, t :: ts => t :: setCompleted now n ts

/-- `complete_task(task_id)`. -/
def completeTask (now : String) (store : List Task) (task_id : Int) : Effect :=
  if task_id - 1 < 0 ∨ (store.length : Int) ≤ task_id - 1 then
    ⟨store, false, ["Invalid task ID"], none⟩
  else
    ⟨setCompleted now (task_id - 1).toNat store, true,
      ["Completed task " ++ toString task_id], none⟩

/-- `tasks.pop(index)`: the removed element (always present at an in-range
index) and the remaining list. -/
def popAt : Nat → List Task → Option Task × List Task
  | _, [] => (none, [])
  | 0, t :: ts => (some t, ts)
  | n + 1, t :: ts =>
    let p := popAt n ts
    (p.1, t :: p.2)

/-- `delete_task(task_id)`. -/
def deleteTask (store : List Task) (task_id : Int) : Effect :=
  if task_id - 1 < 0 ∨ (store.length : Int) ≤ task_id - 1 then
    ⟨store, false, ["Invalid task ID"], none⟩
  else
    ⟨(popAt (task_id - 1).toNat store).2, true,
      ["Deleted task: " ++ ((popAt (task_id - 1).toNat store).1.map Task.description).getD ""],
      none⟩

/-! ### Serialization: `export_tasks` / `import_tasks`

`export_tasks` runs `json.dump(tasks, f, indent=2)`; `import_tasks` runs
`json.load(f)` and hands the loaded value straight to `save_tasks`.  We model
file contents at the JSON-value level: `Json` is the parsed document, and the
open/read/parse step yields either a value or an error string (the caught
`JSONDecodeError` / `FileNotFoundError`). -/

/-- A parsed JSON document (the fragment this program produces). -/
inductive Json where
  | null
  | bool (b : Bool)
  | str (s : String)
  | arr (l : List Json)
  | obj (l : List (String × Json))

/-- Serialization of a `str | None` field value. -/
def encOpt : Option String → Json
  | none => .null
  | some s => .str s

/-- The JSON object `json.dump` writes for one task dictionary: the keys in
insertion order, with `completed_at` present only once `complete_task` has
set it. -/
def encodeTask (t : Task) : Json :=
  .obj ([("description", .str t.description),
         ("completed", .bool t.completed),
         ("priority", .str t.priority),
         ("due_date", encOpt t.due_date),
         ("category", encOpt t.category),
         ("tags", .arr (t.tags.map .str)),
         ("created_at", .str t.created_at)] ++
        (match t.completed_at with
         | none => []
         | some s => [("completed_at", .str s)]))

/-- The JSON array `export_tasks` writes for the whole collection. -/
def exportJson (store : List Task) : Json := .arr (store.map encodeTask)

/-- `export_tasks(filename)`: the file contents written and the line printed.
The store itself is only read. -/
def exportTasks (store : List Task) (filename : String) : Json × List String :=
  (exportJson store, ["Exported " ++ toString store.length ++ " tasks to " ++ filename])

/-- Field access on a loaded JSON object (first binding wins, as in a
Python dict built left to right with distinct keys). -/
def objGet (k : String) : List (String × Json) → Option Json
  | [] => none
  | (k2, v) :: rest => if k2 = k then some v else objGet k rest

/-- Read a string field back. -/
def decStr : Json → Option String
  | .str s => some s
  | _ => none

/-- Read a boolean field back. -/
def decBool : Json → Option Bool
  | .bool b => some b
  | _ => none

/-- Read a `str | None` field back. -/
def decOptStr : Json → Option (Option String)
  | .null => some none
  | .str s => some (some s)
  | _ => none

/-- Read a list of strings back. -/
def decStrList : List Json → Option (List String)
  | [] => some []
  | j :: js => do
    let s ← decStr j
    let rest ← decStrList js
    pure (s :: rest)

/-- Interpret one loaded JSON object as the task dictionary it denotes
(inverse of `encodeTask`; a loaded document whose shape does not match any
task dictionary denotes nothing). -/
def decodeTask : Json → Option Task
  | .obj fields => do
    let d ← (objGet "description" fields).bind decStr
    let c ← (objGet "completed" fields).bind decBool
    let p ← (objGet "priority" fields).bind decStr
    let dd ← (objGet "due_date" fields).bind decOptStr
    let cat ← (objGet "category" fields).bind decOptStr
    let tg ← (match objGet "tags" fields with
              | some (.arr js) => decStrList js
              | _ => none)
    let ca ← (objGet "created_at" fields).bind decStr
    let cmp ← (match objGet "completed_at" fields with
               | none => some none
               | some (.str s) => some (some s)
               | some _ => none)
    pure ⟨d, c, p, dd, cat, tg, ca, cmp⟩
  | _ => none

/-- Interpret a loaded JSON array element-wise. -/
def decodeTaskList : List Json → Option (List Task)
  | [] => some []
  | j :: js => do
    let t ← decodeTask j
    let r ← decodeTaskList js
    pure (t :: r)

/-- Interpret a loaded JSON document as the task collection it denotes. -/
def decodeTasks : Json → Option (List Task)
  | .arr js => decodeTaskList js
  | _ => none

/-- `import_tasks(filename)`: `loaded` is the outcome of
`open` + `json.load` at the path, already interpreted as the collection it
denotes; on success the loaded collection is saved wholesale, on a caught
error a message is printed and nothing is saved. -/
def importTasks (filename : String) (store : List Task)
    (loaded : Except String (List Task)) : Effect :=
  match loaded with
  | .ok ts => ⟨ts, true, ["Imported " ++ toString ts.length ++ " tasks from " ++ filename], none⟩
  | .error e => ⟨store, false, ["Error importing tasks: " ++ e], none⟩

/-! ### Concrete tasks used as failing inputs and witnesses -/

/-- The low-priority task of the repository's own sorting test. -/
def tLow : Task :=
  ⟨"Low priority", false, "low", some "2024-12-31", none, [], "2024-01-01 00:00:00", none⟩

/-- The high-priority task of the repository's own sorting test. -/
def tHigh : Task :=
  ⟨"High priority", false, "high", some "2024-01-01", none, [], "2024-01-01 00:00:00", none⟩

/-- The medium-priority task of the repository's own sorting test. -/
def tMed : Task :=
  ⟨"Medium priority", false, "medium", none, none, [], "2024-01-01 00:00:00", none⟩

/-- A medium-priority task with a due date. -/
def tDueA : Task :=
  ⟨"a", false, "medium", some "2024-01-01", none, [], "2024-01-01 00:00:00", none⟩

/-- A medium-priority task without a due date. -/
def tDueB : Task :=
  ⟨"b", false, "medium", none, none, [], "2024-01-01 00:00:00", none⟩

/-- A task carrying a category. -/
def tWork : Task :=
  ⟨"Work task", false, "medium", none, some "work", [], "2024-01-01 00:00:00", none⟩

/-- A task without a category. -/
def tOther : Task :=
  ⟨"Other task", false, "medium", none, none, [], "2024-01-01 00:00:00", none⟩

/-! ### Helper lemmas -/

/-- `pop` keeps the elements before the index and shifts the rest down. -/
theorem popAt_snd (k : Nat) (l : List Task) :
    (popAt k l).2 = l.take k ++ l.drop (k + 1) := by
  induction l generalizing k with
  | nil => cases k <;> rfl
  | cons t ts ih =>
    cases k with
    | zero => rfl
    | succ n => simp [popAt, ih n]

/-- Decoding a serialized string list gives it back. -/
theorem decStrList_map (l : List String) : decStrList (l.map Json.str) = some l := by
  induction l with
  | nil => rfl
  | cons a as ih => simp [List.map, decStrList, decStr, ih]

/-- Decoding a serialized optional string gives it back. -/
theorem decOptStr_encOpt (o : Option String) : decOptStr (encOpt o) = some o := by
  cases o <;> rfl

/-- Decoding the JSON written for one task gives the task back. -/
theorem decodeTask_encodeTask (t : Task) : decodeTask (encodeTask t) = some t := by
  obtain ⟨d, c, p, dd, cat, tg, ca, cmp⟩ := t
  cases cmp with
  | none =>
    show (decOptStr (encOpt dd)).bind (fun ddv =>
        (decOptStr (encOpt cat)).bind (fun catv =>
          (decStrList (tg.map Json.str)).bind (fun tgv =>
            some (Task.mk d c p ddv catv tgv ca none))))
      = some (Task.mk d c p dd cat tg ca none)
    rw [decOptStr_encOpt, decOptStr_encOpt, decStrList_map]
    rfl
  | some s =>
    show (decOptStr (encOpt dd)).bind (fun ddv =>
        (decOptStr (encOpt cat)).bind (fun catv =>
          (decStrList (tg.map Json.str)).bind (fun tgv =>
            some (Task.mk d c p ddv catv tgv ca (some s)))))
      = some (Task.mk d c p dd cat tg ca (some s))
    rw [decOptStr_encOpt, decOptStr_encOpt, decStrList_map]
    rfl

/-- The priority error message, with the joined list evaluated. -/
theorem priorityMsg_eval :
    "Priority must be one of: " ++ String.intercalate ", " PRIORITIES
      = "Priority must be one of: low, medium, high" := rfl

/-- The two validation messages of `add_task` differ. -/
theorem dueMsg_ne_priorityMsg :
    "Due date must be in YYYY-MM-DD format" ≠ "Priority must be one of: low, medium, high" := by
  decide

/-- Injectivity of a raised `ValueError` down to its message. -/
theorem errMsg_inj {m1 m2 : String}
    (h : (some (PyErr.valueError m1) : Option PyErr) = some (PyErr.valueError m2)) :
    m1 = m2 := by
  injection h with h1
  injection h1

/-- Decoding the JSON array written for a collection gives it back. -/
theorem decodeTaskList_map (ts : List Task) :
    decodeTaskList (ts.map encodeTask) = some ts := by
  induction ts with
  | nil => rfl
  | cons t rest ih => simp [List.map, decodeTaskList, decodeTask_encodeTask t, ih]

/-- Decoding the exported document gives the collection back. -/
theorem decodeTasks_exportJson (ts : List Task) : decodeTasks (exportJson ts) = some ts :=
  decodeTaskList_map ts

/-! ### Claims -/

/-- Claim C1: for every task collection, `list` sorts the visible tasks
ascending by priority rank with high=0 < medium=1 < low=2, so every
high-priority task is rendered before every medium-priority task, which is
rendered before every low-priority task.  The code does the opposite: the
sort key is `PRIORITIES.index(...)` over `['low', 'medium', 'high']`, i.e.
low=0 < medium=1 < high=2, so on the three tasks of the repository's own
sorting test the low-priority task is printed first and the high-priority
task last — the test `test_sort_by_priority_and_due_date` asserts the
reverse order and fails on this code. -/
theorem list_prints_low_priority_first :
    (listTasks [tLow, tHigh, tMed] true none none none).out =
      ["1. [ ] [low] Low priority Due: 2024-12-31 ",
       "2. [ ] [medium] Medium priority  ",
       "3. [ ] [high] High priority Due: 2024-01-01 "] := by rfl

/-- Claim C2: within equal priority rank, `list` sorts by due date with the
sentinel `"9999-99-99"` making tasks without a due date sort last.  On the
dictionaries this program writes, the `due_date` key is always present (with
value `None` when absent), so `x.get('due_date', '9999-99-99')` returns
`None` and the sentinel never applies; sorting a collection holding, at equal
priority, one task with a due date and one without compares `None` with a
string and raises `TypeError`, printing nothing. -/
theorem list_mixed_due_dates_raise :
    listTasks [tDueA, tDueB] true none none none
      = ⟨[tDueA, tDueB], false, [], some PyErr.typeError⟩ := by rfl

/-- Claim C3: when grouping by category, tasks lacking a category are placed
under a group whose header is the literal text "Uncategorized".  On the
dictionaries this program writes the `category` key is always present (value
`None` for no category), so `task.get('category', 'Uncategorized')` returns
`None` and the printed header is `None:`, not `Uncategorized:`. -/
theorem list_uncategorized_header_prints_none :
    (listTasks [tWork, tOther] true none none none).out =
      ["\nwork:", "1. [ ] [medium] Work task  ",
       "\nNone:", "1. [ ] [medium] Other task  "] := by rfl

/-- Claim C4 counterexample: the claim says `add` with an empty description
string does not produce a stored task whose description is empty text; in
fact `add_task('')` appends and persists a task whose description is `""`. -/
theorem add_empty_description_stored :
    (addTask "2024-01-01 00:00:00" [] "" none "medium" none none).saved = true ∧
    (addTask "2024-01-01 00:00:00" [] "" none "medium" none none).store.map Task.description
      = [""] := ⟨rfl, rfl⟩

/-- Claim C4 (amended): `add` performs no validation on the description and
stores it verbatim — in particular an empty description string yields a
stored task whose description is the empty string, so the collection does
not maintain a non-empty-description invariant. -/
theorem add_stores_description_verbatim (now : String) (store : List Task) (d : String)
    (cat : Option String) (tg : Option (List String)) :
    (addTask now store d none "medium" cat tg).store
        = store ++ [mkTask now d none "medium" cat tg] ∧
    (addTask now store d none "medium" cat tg).err = none := ⟨rfl, rfl⟩

/-- Claim C5: for every collection of length n and every position p with
p < 1 or p > n, `complete(p)` and `delete(p)` each print "Invalid task ID",
save nothing, and leave the collection exactly unchanged. -/
theorem complete_delete_out_of_range (now : String) (store : List Task) (p : Int)
    (h : p < 1 ∨ (store.length : Int) < p) :
    completeTask now store p = ⟨store, false, ["Invalid task ID"], none⟩ ∧
    deleteTask store p = ⟨store, false, ["Invalid task ID"], none⟩ := by
  have hc : p - 1 < 0 ∨ (store.length : Int) ≤ p - 1 := by omega
  constructor
  · unfold completeTask
    rw [if_pos hc]
  · unfold deleteTask
    rw [if_pos hc]

/-- Witness for C5 at the spec's example: id 999 on a 1-task collection. -/
theorem complete_delete_out_of_range_witness :
    completeTask "2024-01-01 00:00:00" [tLow] 999
        = ⟨[tLow], false, ["Invalid task ID"], none⟩ ∧
    deleteTask [tLow] 999 = ⟨[tLow], false, ["Invalid task ID"], none⟩ :=
  complete_delete_out_of_range "2024-01-01 00:00:00" [tLow] 999 (by decide)

/-- Claim C6: `import(path)` replaces the stored collection wholesale with
the collection read from the file (no merging); if the file is missing or
unparseable, the error is reported and the existing stored collection is
left exactly as it was, with nothing saved. -/
theorem import_replaces_or_reports (fn : String) (store ts : List Task) (e : String) :
    importTasks fn store (Except.ok ts)
        = ⟨ts, true, ["Imported " ++ toString ts.length ++ " tasks from " ++ fn], none⟩ ∧
    importTasks fn store (Except.error e)
        = ⟨store, false, ["Error importing tasks: " ++ e], none⟩ := ⟨rfl, rfl⟩

/-- Claim C7 counterexample: the claim says `add` fails iff the due date is
present and not parseable in YYYY-MM-DD format, with no calendar-validity
requirement beyond the format parse.  `"2024-02-30"` matches the format
(`specFormatParseYmd` is the spec-worded, purely textual parse) yet `add`
rejects it, because `datetime.strptime` also validates the calendar. -/
theorem add_rejects_calendar_invalid_date :
    specFormatParseYmd "2024-02-30" = true ∧
    (addTask "2024-01-01 00:00:00" [] "x" (some "2024-02-30") "medium" none none).err
        = some (PyErr.valueError "Due date must be in YYYY-MM-DD format") ∧
    (addTask "2024-01-01 00:00:00" [] "x" (some "2024-02-30") "medium" none none).saved
        = false := ⟨rfl, rfl, rfl⟩

/-- Claim C7 (amended): `add` fails with the due-date validation error iff
the due date is present and non-empty (Python truthiness) and not accepted
by `datetime.strptime(..., '%Y-%m-%d')`, which enforces calendar validity in
addition to the textual format; the valid date "2024-12-31" is accepted and
stored exactly as given. -/
theorem add_due_date_validation (now : String) (store : List Task) (d : String)
    (due cat : Option String) (tg : Option (List String)) (p : String) :
    ((addTask now store d due p cat tg).err
        = some (PyErr.valueError "Due date must be in YYYY-MM-DD format")
      ↔ p ∈ PRIORITIES ∧ pyTruthy due = true ∧ strptimeOk (due.getD "") = false) ∧
    (addTask now store d (some "2024-12-31") "medium" cat tg).store
        = store ++ [mkTask now d (some "2024-12-31") "medium" cat tg] := by
  have htb : ((true : Bool) = true) := rfl
  have hfb : ¬((false : Bool) = true) := by decide
  constructor
  · by_cases hp : p ∈ PRIORITIES
    · unfold addTask
      rw [if_neg (not_not_intro hp)]
      cases hb : (pyTruthy due && !strptimeOk (due.getD "")) with
      | true =>
        rw [if_pos htb]
        simp only [Bool.and_eq_true, Bool.not_eq_true'] at hb
        exact iff_of_true rfl ⟨hp, hb.1, hb.2⟩
      | false =>
        rw [if_neg hfb]
        refine iff_of_false (fun hcon => Option.noConfusion hcon) ?_
        rintro ⟨-, h1, h2⟩
        rw [h1, h2] at hb
        simp at hb
    · unfold addTask
      rw [if_pos hp]
      refine iff_of_false (fun hcon => ?_) (fun h => hp h.1)
      exact dueMsg_ne_priorityMsg (errMsg_inj hcon).symm
  · rfl

/-- Claim C8: for every priority string not in {low, medium, high}, `add`
fails with a validation error whose message names the allowed set, appending
and persisting nothing; for every priority in the set, this validation
passes (the priority error is never raised). -/
theorem add_invalid_priority (now : String) (store : List Task) (d : String)
    (due cat : Option String) (tg : Option (List String)) (p : String)
    (hp : p ∉ PRIORITIES) :
    addTask now store d due p cat tg
        = ⟨store, false, [],
           some (PyErr.valueError "Priority must be one of: low, medium, high")⟩ ∧
    ∀ q, q ∈ PRIORITIES →
      (addTask now store d due q cat tg).err
        ≠ some (PyErr.valueError "Priority must be one of: low, medium, high") := by
  have htb : ((true : Bool) = true) := rfl
  have hfb : ¬((false : Bool) = true) := by decide
  constructor
  · unfold addTask
    rw [if_pos hp]
    rfl
  · intro q hq
    unfold addTask
    rw [if_neg (not_not_intro hq)]
    cases hb : (pyTruthy due && !strptimeOk (due.getD "")) with
    | true =>
      rw [if_pos htb]
      exact fun hcon => dueMsg_ne_priorityMsg (errMsg_inj hcon)
    | false =>
      rw [if_neg hfb]
      exact fun hcon => Option.noConfusion hcon

/-- Witness for C8: priority "urgent" is rejected with the message naming
the allowed set, and the three allowed priorities never trigger it. -/
theorem add_invalid_priority_witness :
    addTask "2024-01-01 00:00:00" [] "x" none "urgent" none none
        = ⟨[], false, [],
           some (PyErr.valueError "Priority must be one of: low, medium, high")⟩ ∧
    ∀ q, q ∈ PRIORITIES →
      (addTask "2024-01-01 00:00:00" [] "x" none q none none).err
        ≠ some (PyErr.valueError "Priority must be one of: low, medium, high") :=
  add_invalid_priority "2024-01-01 00:00:00" [] "x" none none none "urgent" (by decide)

/-- Claim C9: for every collection, `export` to a file followed by `import`
of that same file reproduces an identical stored collection: the exported
document decodes back to exactly the original tasks, and importing it
replaces any current store with them. -/
theorem export_import_roundtrip (ts cur : List Task) (fn fn2 : String) :
    (decodeTasks (exportTasks ts fn).1).map
        (fun c => (importTasks fn2 cur (Except.ok c)).store) = some ts := by
  show (decodeTasks (exportJson ts)).map
      (fun c => (importTasks fn2 cur (Except.ok c)).store) = some ts
  rw [decodeTasks_exportJson]
  rfl

/-- Claim C10: for every in-range position p, `delete(p)` removes exactly
the task at position p: the tasks before p are unchanged, the tasks after p
shift down by one, the length drops by one, and the result is persisted. -/
theorem delete_inrange_shifts (store : List Task) (n : Nat)
    (h1 : 1 ≤ n) (h2 : n ≤ store.length) :
    (deleteTask store (n : Int)).store = store.take (n - 1) ++ store.drop n ∧
    (deleteTask store (n : Int)).store.length = store.length - 1 ∧
    (deleteTask store (n : Int)).saved = true := by
  have hc : ¬(((n : Int)) - 1 < 0 ∨ (store.length : Int) ≤ ((n : Int)) - 1) := by omega
  have ht : (((n : Int)) - 1).toNat = n - 1 := by omega
  unfold deleteTask
  rw [if_neg hc]
  simp only [ht, popAt_snd]
  have hn : n - 1 + 1 = n := by omega
  rw [hn]
  refine ⟨by trivial, ?_, by trivial⟩
  show (store.take (n - 1) ++ store.drop n).length = store.length - 1
  rw [List.length_append, List.length_take, List.length_drop]
  omega

/-- Witness for C10: deleting position 2 from a 3-task collection. -/
theorem delete_inrange_shifts_witness :
    (deleteTask [tLow, tMed, tHigh] ((2 : Nat) : Int)).store
        = [tLow, tMed, tHigh].take (2 - 1) ++ [tLow, tMed, tHigh].drop 2 ∧
    (deleteTask [tLow, tMed, tHigh] ((2 : Nat) : Int)).store.length
        = [tLow, tMed, tHigh].length - 1 ∧
    (deleteTask [tLow, tMed, tHigh] ((2 : Nat) : Int)).saved = true :=
  delete_inrange_shifts [tLow, tMed, tHigh] 2 (by decide) (by decide)

end TaskManager
